import Mathlib

/-!
Verification of the telemetry anomaly-detection core (`backend/anomaly.py`)
and the resource-bounded parse loop (`backend/mavparse.py`).

Modelling conventions, shared by every definition below:

* A pandas cell is a `Value`: a numeric value (modelled as an exact rational,
  since every threshold in the source is a decimal literal), a string, or a
  missing entry (`NaN`/`None`).
* A `Table` is a column store: `nrows` is `len(df)` and `cols` maps each
  column name to its list of cells in row order.
* `Series.dropna()` is `dropna` (it removes only missing entries, not
  strings).  A pandas statistic (`diff`, `min`, `max`, `mean`, an ordered
  comparison) applied to a column that still holds a non-numeric value raises
  `TypeError`; we model "raises" as `Option.none`, and a successful numeric
  extraction as `toNums = some _`.
* `Series.diff()` yields `NaN` followed by the consecutive differences;
  `NaN` compares false, is skipped by `max`/`min` and never contributes to a
  boolean `sum()`, so the diff series is modelled by the list `diffs` of the
  `n-1` defined differences.
* For the GPS position-jump check the source combines `lat.diff()` and
  `lng.diff()` of two independently `dropna()`-ed series; pandas aligns the
  binary operations on the surviving original row labels, and a label present
  on one side only yields `NaN` (which then compares false).  We therefore
  model those two series with their original row positions attached.
* `np.cos(np.radians x)` and `np.sqrt x` are floating-point transcendentals;
  they are abstracted as the fields of `FloatOps`, and every theorem holds
  for every interpretation of them.
* The `description` f-strings, the `"axis"` string metric and the
  `error_types` string-list metric are presentation-only fields that no
  analyzer reads back; they are omitted from the finding model.  Python's
  `int()` casts on counts are identity on the natural numbers involved.
-/

/-- A single pandas cell: numeric, string, or missing (`NaN`). -/
inductive Value where
  | num (q : ℚ)
  | str (s : String)
  | missing
deriving DecidableEq, Repr

/-- A pandas `DataFrame`, column-oriented: `nrows = len(df)` and each entry
of `cols` is one named column of cells in row order. -/
structure Table where
  nrows : Nat
  cols : List (String × List Value)
deriving DecidableEq, Repr

/-- `name in df.columns`. -/
def Table.hasCol (df : Table) (c : String) : Bool :=
  (df.cols.lookup c).isSome

/-- `df[name]` as the list of its cells (defaults to the empty column when
absent; only reached behind a `hasCol` test, as in the source). -/
def Table.getCol (df : Table) (c : String) : List Value :=
  (df.cols.lookup c).getD []

/-- Every column has exactly `nrows` cells (what a real `DataFrame`
guarantees). -/
def Table.WF (df : Table) : Prop :=
  ∀ p ∈ df.cols, p.2.length = df.nrows

/-- `Series.dropna()`: remove the missing cells, keep order. -/
def dropna (col : List Value) : List Value :=
  col.filter (fun v => decide (v ≠ Value.missing))

/-- Extract the numeric contents of a series.  `none` models the `TypeError`
pandas raises when a statistic is applied to a series still holding a
non-numeric value. -/
def toNums : List Value → Option (List ℚ)
  | [] => some []
  | Value.num q :: rest => (toNums rest).map (fun l => q :: l)
  | _ => none

/-- `Series.dropna()` keeping the original row positions: the cells of a
column enumerated by row index, missing entries removed. -/
def colIdx (col : List Value) : List (Nat × Value) :=
  col.enum.filter (fun p => decide (p.2 ≠ Value.missing))

/-- Row positions at which a column holds a present (non-missing) cell. -/
def support (col : List Value) : List Nat :=
  (colIdx col).map Prod.fst

/-- Numeric extraction of an index-carrying series (see `toNums`). -/
def toNumsIdx : List (Nat × Value) → Option (List (Nat × ℚ))
  | [] => some []
  | (i, Value.num q) :: rest => (toNumsIdx rest).map (fun l => (i, q) :: l)
  | _ => none

/-- `series.min()` on a nonempty numeric series (0 on the empty list, which
the source never reaches). -/
def qmin : List ℚ → ℚ
  | [] => 0
  | x :: xs => xs.foldl min x

/-- `series.max()` on a nonempty numeric series. -/
def qmax : List ℚ → ℚ
  | [] => 0
  | x :: xs => xs.foldl max x

/-- `series.sum()`. -/
def qsum (l : List ℚ) : ℚ :=
  l.foldl (· + ·) 0

/-- `series.mean()` on a nonempty numeric series. -/
def qmean (l : List ℚ) : ℚ :=
  qsum l / l.length

/-- The defined entries of `series.diff()`: the `n-1` consecutive
differences (the leading `NaN` compares false and is skipped by every
aggregate, so it is dropped from the model). -/
def diffs : List ℚ → List ℚ
  | [] => []
  | [_] => []
  | a :: b :: rest => (b - a) :: diffs (b :: rest)

/-- `series.diff()` of an index-carrying series: each defined difference is
labelled with the original row position of its right endpoint (the leading
`NaN` entry is dropped, see `diffs`). -/
def idiffs : List (Nat × ℚ) → List (Nat × ℚ)
  | [] => []
  | [_] => []
  | a :: b :: rest => (b.1, b.2 - a.2) :: idiffs (b :: rest)

/-- The finding severities of `anomaly.py`. -/
inductive Severity where
  | low
  | medium
  | high
  | critical
deriving DecidableEq, Repr

/-- One anomaly finding: its `type` string, its severity, and its numeric
metrics in dict insertion order. -/
structure Finding where
  ftype : String
  severity : Severity
  metrics : List (String × ℚ)
deriving DecidableEq, Repr

/-- The report dictionary of `detect_anomalies`. -/
structure Report where
  total_anomalies : Nat
  severity : String
  altitude_issues : List Finding
  gps_problems : List Finding
  battery_concerns : List Finding
  control_anomalies : List Finding
  navigation_issues : List Finding
  system_errors : List Finding
deriving DecidableEq, Repr

/-- Abstract interpretations of the floating-point transcendentals used by
the GPS position-jump check: `cosDeg x` models `np.cos(np.radians x)` and
`sqrt` models `np.sqrt`. -/
structure FloatOps where
  cosDeg : ℚ → ℚ
  sqrt : ℚ → ℚ

/-- A fixed interpretation of `FloatOps`, used to instantiate theorems at
concrete inputs (no decided claim depends on the values of `cosDeg`/`sqrt`). -/
def idOps : FloatOps :=
  ⟨fun _ => 1, fun q => q⟩

/-! ## Altitude analyzer (`analyze_altitude_anomalies`, anomaly.py 73-117) -/

/-- The altitude-spike loop (`for i in range(1, len(alt)-1)`): one
`medium`-severity finding per interior index whose rise exceeds 15 and whose
following fall is below −15; here expressed as a sliding window over the
series, which visits exactly the interior indices. -/
def spikeFindings : List ℚ → List Finding
  | a :: b :: c :: rest =>
      (if b - a > 15 ∧ c - b < -15 then
        [⟨"altitude_spike", Severity.medium, [("spike_magnitude_m", b - a)]⟩]
      else []) ++ spikeFindings (b :: c :: rest)
  | _ => []

/-- Body of the altitude analyzer on the extracted numeric series
(reached only with at least 2 values). -/
def altitude_core (alt : List ℚ) : List Finding :=
  let alt_diff := (diffs alt).map (fun q => |q|)
  let large := alt_diff.filter (fun q => decide (q > 20))
  (if large = [] then []
   else
     [⟨"large_altitude_change",
       (if qmax alt_diff > 50 then Severity.high else Severity.medium),
       [("max_change_m", qmax alt_diff), ("occurrences", (large.length : ℚ))]⟩])
  ++ spikeFindings alt
  ++ (if qmin alt < -5 then
        [⟨"negative_altitude", Severity.high, [("min_altitude_m", qmin alt)]⟩]
      else [])

/-- `analyze_altitude_anomalies`: guard on column presence and on at least
2 retained values, then run the numeric body (`none` = raised `TypeError`). -/
def analyze_altitude_anomalies (df : Table) : Option (List Finding) :=
  if df.hasCol "Alt" then
    let altv := dropna (df.getCol "Alt")
    if altv.length < 2 then some []
    else (toNums altv).map altitude_core
  else some []

/-! ## GPS analyzer (`analyze_gps_anomalies`, anomaly.py 120-175) -/

/-- HDop block body: one finding when any value exceeds 3.0. -/
def hdop_core (hs : List ℚ) : List Finding :=
  let poor := hs.filter (fun q => decide (q > 3.0))
  if poor = [] then []
  else
    [⟨"poor_gps_accuracy",
      (if qmean poor > 5.0 then Severity.high else Severity.medium),
      [("max_hdop", qmax hs), ("avg_poor_hdop", qmean poor),
       ("poor_samples", (poor.length : ℚ))]⟩]

/-- HDop block with its guards. -/
def hdopPart (df : Table) : Option (List Finding) :=
  if df.hasCol "HDop" then
    let h := dropna (df.getCol "HDop")
    if h.length > 0 then (toNums h).map hdop_core else some []
  else some []

/-- NSats block body: one finding when any value is below 6. -/
def nsats_core (ns : List ℚ) : List Finding :=
  let low := ns.filter (fun q => decide (q < 6))
  if low = [] then []
  else
    [⟨"insufficient_satellites", Severity.high,
      [("min_satellites", qmin ns), ("low_sat_samples", (low.length : ℚ))]⟩]

/-- NSats block with its guards. -/
def nsatsPart (df : Table) : Option (List Finding) :=
  if df.hasCol "NSats" then
    let n := dropna (df.getCol "NSats")
    if n.length > 0 then (toNums n).map nsats_core else some []
  else some []

/-- Position-jump block.  `lat.diff()` and `lng.diff()` keep the original
row labels of their `dropna()`-ed series; the binary combination
`sqrt(lat_diff**2 + lng_diff**2)` aligns on those labels, and a label
present on one side only yields `NaN`, which compares false and is skipped
by `max`, `sum` and `any` — hence the per-label lookup. -/
def jumpPart (ops : FloatOps) (df : Table) : Option (List Finding) :=
  if df.hasCol "Lat" && df.hasCol "Lng" then
    let latv := colIdx (df.getCol "Lat")
    let lngv := colIdx (df.getCol "Lng")
    if latv.length > 1 && lngv.length > 1 then
      match toNumsIdx latv, toNumsIdx lngv with
      | some lat, some lng =>
          let latD := (idiffs lat).map (fun p => (p.1, p.2 * 111000))
          let lngD := (idiffs lng).map
            (fun p => (p.1, p.2 * 111000 * ops.cosDeg (qmean (lat.map Prod.snd))))
          let distance := latD.filterMap
            (fun p => (lngD.lookup p.1).map (fun b => ops.sqrt (p.2 * p.2 + b * b)))
          if distance.any (fun d => decide (d > 100)) then
            some [⟨"gps_position_jump", Severity.critical,
              [("max_jump_m", qmax distance),
               ("jump_count", (distance.countP (fun d => decide (d > 100)) : ℚ))]⟩]
          else some []
      | _, _ => none
    else some []
  else some []

/-- `analyze_gps_anomalies`: the three blocks in source order; a raised
`TypeError` in any of them propagates. -/
def analyze_gps_anomalies (ops : FloatOps) (df : Table) : Option (List Finding) :=
  match hdopPart df, nsatsPart df, jumpPart ops df with
  | some h, some n, some j => some (h ++ n ++ j)
  | _, _, _ => none

/-! ## Battery analyzer (`analyze_battery_anomalies`, anomaly.py 178-230) -/

/-- Voltage block body: the mutually exclusive `if/elif` level findings,
then the independent sudden-drop finding. -/
def volt_core (vs : List ℚ) : List Finding :=
  (if qmin vs < 11.1 then
    [⟨"low_battery_voltage", Severity.critical,
      [("min_voltage", qmin vs), ("voltage_drop", qmax vs - qmin vs)]⟩]
   else if qmin vs < 11.5 then
    [⟨"low_battery_warning", Severity.medium, [("min_voltage", qmin vs)]⟩]
   else [])
  ++
  (let vd := diffs vs
   let drops := vd.filter (fun q => decide (q < -0.5))
   if drops = [] then []
   else
     [⟨"voltage_drop", Severity.medium,
       [("max_drop_v", |qmin vd|), ("drop_count", (drops.length : ℚ))]⟩])

/-- Voltage block with its guards. -/
def voltPart (df : Table) : Option (List Finding) :=
  if df.hasCol "Volt" then
    let v := dropna (df.getCol "Volt")
    if v.length > 0 then (toNums v).map volt_core else some []
  else some []

/-- Current block body: one finding when the maximum draw exceeds 30. -/
def curr_core (cs : List ℚ) : List Finding :=
  if qmax cs > 30 then
    [⟨"high_current_draw", Severity.medium,
      [("max_current_a", qmax cs), ("avg_current_a", qmean cs)]⟩]
  else []

/-- Current block with its guards. -/
def currPart (df : Table) : Option (List Finding) :=
  if df.hasCol "Curr" then
    let c := dropna (df.getCol "Curr")
    if c.length > 0 then (toNums c).map curr_core else some []
  else some []

/-- `analyze_battery_anomalies`: voltage block then current block. -/
def analyze_battery_anomalies (df : Table) : Option (List Finding) :=
  match voltPart df, currPart df with
  | some v, some c => some (v ++ c)
  | _, _ => none

/-! ## Control analyzer (`analyze_control_anomalies`, anomaly.py 233-265) -/

/-- Per-axis body: the instability finding on consecutive differences, then
the extreme-attitude finding. -/
def axis_core (axis : String) (vs : List ℚ) : List Finding :=
  let ad := (diffs vs).map (fun q => |q|)
  let inst := ad.filter (fun q => decide (q > 30))
  (if inst = [] then []
   else
     [⟨axis.toLower ++ "_instability",
       (if qmax ad > 60 then Severity.high else Severity.medium),
       [("max_change_deg", qmax ad)]⟩])
  ++
  (let am := qmax (vs.map (fun q => |q|))
   if am > 45 then
     [⟨"extreme_" ++ axis.toLower, Severity.high, [("max_attitude_deg", am)]⟩]
   else [])

/-- One iteration of the `for axis in ["Roll","Pitch","Yaw"]` loop. -/
def axisPart (df : Table) (axis : String) : Option (List Finding) :=
  if df.hasCol axis then
    let a := dropna (df.getCol axis)
    if a.length > 1 then (toNums a).map (axis_core axis) else some []
  else some []

/-- `analyze_control_anomalies`: the three axes in loop order. -/
def analyze_control_anomalies (df : Table) : Option (List Finding) :=
  match axisPart df "Roll", axisPart df "Pitch", axisPart df "Yaw" with
  | some r, some p, some y => some (r ++ p ++ y)
  | _, _, _ => none

/-! ## Navigation analyzer (`analyze_navigation_anomalies`, anomaly.py 268-299) -/

/-- Waypoint block body: finding when more than 30% of the samples move away
from the waypoint by more than 10. -/
def wp_core (ws : List ℚ) : List Finding :=
  let inc := (diffs ws).filter (fun q => decide (q > 10))
  if (inc.length : ℚ) > (ws.length : ℚ) * 0.3 then
    [⟨"waypoint_navigation_error", Severity.medium,
      [("max_wp_distance_m", qmax ws)]⟩]
  else []

/-- Waypoint block with its guards. -/
def wpPart (df : Table) : Option (List Finding) :=
  if df.hasCol "WPDst" then
    let w := dropna (df.getCol "WPDst")
    if w.length > 1 then (toNums w).map wp_core else some []
  else some []

/-- Climb-rate block body: finding when the maximum absolute rate exceeds
500 cm/s. -/
def crt_core (cs : List ℚ) : List Finding :=
  let m := qmax (cs.map (fun q => |q|))
  if m > 500 then
    [⟨"excessive_climb_rate", Severity.high, [("max_climb_rate_cms", m)]⟩]
  else []

/-- Climb-rate block with its guards. -/
def crtPart (df : Table) : Option (List Finding) :=
  if df.hasCol "CRt" then
    let c := dropna (df.getCol "CRt")
    if c.length > 0 then (toNums c).map crt_core else some []
  else some []

/-- `analyze_navigation_anomalies`: waypoint block then climb-rate block. -/
def analyze_navigation_anomalies (df : Table) : Option (List Finding) :=
  match wpPart df, crtPart df with
  | some w, some c => some (w ++ c)
  | _, _ => none

/-! ## System-event analyzer (`analyze_system_errors`, anomaly.py 302-330) -/

/-- `analyze_system_errors`: `len(df[df["msg_type"] == tag])` is the number
of cells of the `msg_type` column equal to the string `tag` (a `NaN` cell
never equals a string).  Elementwise `==` never raises, so this analyzer is
total. -/
def analyze_system_errors (df : Table) : List Finding :=
  if df.hasCol "msg_type" then
    let mcol := df.getCol "msg_type"
    let errCount := mcol.countP (fun v => decide (v = Value.str "ERR"))
    let modeCount := mcol.countP (fun v => decide (v = Value.str "MODE"))
    (if errCount > 0 then
      [⟨"system_errors_detected", Severity.high, [("error_count", (errCount : ℚ))]⟩]
     else [])
    ++
    (if modeCount > 3 then
      [⟨"frequent_mode_changes", Severity.medium,
        [("mode_change_count", (modeCount : ℚ))]⟩]
     else [])
  else []

/-! ## Orchestrator (`detect_anomalies`, anomaly.py 5-70) -/

/-- The severity banding of anomaly.py lines 59-68. -/
def severityBand (total : Nat) : String :=
  if total = 0 then "normal"
  else if total ≤ 2 then "minor"
  else if total ≤ 5 then "moderate"
  else "critical"

/-- The initial report dictionary (also the early return for tables of
fewer than 2 rows). -/
def baselineReport : Report :=
  ⟨0, "normal", [], [], [], [], [], []⟩

/-- Assemble the final report from the six category lists. -/
def mkReport (a g b c n s : List Finding) : Report :=
  let total := a.length + g.length + b.length + c.length + n.length + s.length
  ⟨total, severityBand total, a, g, b, c, n, s⟩

/-- Altitude category with its column-presence dispatch. -/
def altOpt (df : Table) : Option (List Finding) :=
  if df.hasCol "Alt" then analyze_altitude_anomalies df else some []

/-- GPS category with its column-presence dispatch. -/
def gpsOpt (ops : FloatOps) (df : Table) : Option (List Finding) :=
  if ["HDop", "NSats", "Lat", "Lng"].any df.hasCol then
    analyze_gps_anomalies ops df
  else some []

/-- Battery category with its column-presence dispatch. -/
def batOpt (df : Table) : Option (List Finding) :=
  if ["Volt", "Curr", "CurrTot"].any df.hasCol then
    analyze_battery_anomalies df
  else some []

/-- Control category with its column-presence dispatch. -/
def ctlOpt (df : Table) : Option (List Finding) :=
  if ["Roll", "Pitch", "Yaw", "DesRoll", "DesPitch"].any df.hasCol then
    analyze_control_anomalies df
  else some []

/-- Navigation category with its column-presence dispatch. -/
def navOpt (df : Table) : Option (List Finding) :=
  if ["WPDst", "CRt", "VelX", "VelY"].any df.hasCol then
    analyze_navigation_anomalies df
  else some []

/-- System-error category with its column-presence dispatch (never raises). -/
def sysOpt (df : Table) : List Finding :=
  if df.hasCol "msg_type" then analyze_system_errors df else []

/-- `detect_anomalies`: early return below 2 rows, otherwise run the six
dispatched analyzers and aggregate.  `none` models an uncaught analyzer
`TypeError` propagating to the caller (there is no try/except in the
source). -/
def detect_anomalies (ops : FloatOps) (df : Table) : Option Report :=
  if df.nrows < 2 then some baselineReport
  else
    match altOpt df, gpsOpt ops df, batOpt df, ctlOpt df, navOpt df with
    | some a, some g, some b, some c, some n =>
        some (mkReport a g b c n (sysOpt df))
    | _, _, _, _, _ => none

/-! ## Parse loop (`parse_bin_to_df`, mavparse.py 8-102) -/

/-- One decoded row: a message dict, field name to cell value (with the
`msg_type` entry already set, as the loop body does). -/
abbrev LogRow : Type := List (String × Value)

/-- The outcome of one `recv_match` iteration of the parse loop, decoded by
the external pymavlink library: a valid message (with its dict), a
`BAD_DATA` message, a `None` return (end of stream), or an exception raised
inside the iteration body. -/
inductive LoopStep where
  | msg (r : LogRow)
  | badData
  | recvNone
  | exn

/-- The mutable state of the parse loop. -/
structure LoopState where
  rows : List LogRow
  message_count : Nat
  bad_data_count : Nat
  consecutive_bad : Nat

/-- The initial loop state. -/
def initState : LoopState :=
  ⟨[], 0, 0, 0⟩

/-- The `while` loop of `parse_bin_to_df`.  Each input element is one
iteration: its boolean says whether the wall-clock budget check fires at the
top of that iteration (wall time is external, so it is an oracle), and its
step is the decoder outcome.  An exhausted input models the decoder
returning `None` from then on. -/
def runLoop : List (Bool × LoopStep) → LoopState → LoopState
  | [], st => st
  | (t, s) :: rest, st =>
      if st.message_count < 2000 ∧ st.bad_data_count < 100 then
        if t then st
        else if st.consecutive_bad ≥ 10 then st
        else
          match s with
          | LoopStep.recvNone => st
          | LoopStep.badData =>
              runLoop rest
                ⟨st.rows, st.message_count, st.bad_data_count + 1,
                 st.consecutive_bad + 1⟩
          | LoopStep.exn =>
              runLoop rest
                ⟨st.rows, st.message_count, st.bad_data_count + 1,
                 st.consecutive_bad + 1⟩
          | LoopStep.msg r =>
              runLoop rest
                ⟨st.rows ++ [r], st.message_count + 1, st.bad_data_count, 0⟩
      else st

/-- Column names appearing in a list of row dicts, first occurrence first. -/
def colNames (rows : List LogRow) : List String :=
  (rows.flatMap (fun r => r.map Prod.fst)).dedup

/-- `pd.DataFrame(rows)` from a list of row dicts: the union of the keys as
columns, each row's missing keys padded with `NaN`. -/
def dfOfRows (rows : List LogRow) : Table :=
  ⟨rows.length,
   (colNames rows).map
     (fun c => (c, rows.map (fun r => (r.lookup c).getD Value.missing)))⟩

/-- `create_minimal_test_data` (mavparse.py 105-113): the fixed 5-frame
synthetic dataset. -/
def create_minimal_test_data : Table :=
  ⟨5,
   [("TimeUS", [Value.num 0, Value.num 60000000, Value.num 120000000,
                Value.num 180000000, Value.num 240000000]),
    ("Alt", [Value.num 50.0, Value.num 75.0, Value.num 60.0,
             Value.num 85.0, Value.num 55.0]),
    ("HDop", [Value.num 1.8, Value.num 1.5, Value.num 1.6,
              Value.num 2.1, Value.num 1.7]),
    ("Volt", [Value.num 12.6, Value.num 12.4, Value.num 12.2,
              Value.num 12.0, Value.num 11.8]),
    ("msg_type", [Value.str "GPS", Value.str "GPS", Value.str "GPS",
                  Value.str "GPS", Value.str "GPS"])]⟩

/-- Input to `parse_bin_to_df` as seen through the external decoder:
either `mavlink_connection` itself raises (caught by the outer `except`),
or it yields a stream of per-iteration outcomes. -/
inductive ParseInput where
  | connFail
  | conn (steps : List (Bool × LoopStep))

/-- `parse_bin_to_df`: run the budgeted loop, keep the rows only when at
least 10 valid frames were recovered, otherwise (or on any decoder-level
exception) fall back to the synthetic dataset.  Total by construction:
every exception path of the source is caught. -/
def parse_bin_to_df (input : ParseInput) : Table :=
  match input with
  | ParseInput.connFail => create_minimal_test_data
  | ParseInput.conn steps =>
      if (runLoop steps initState).rows ≠ [] ∧
         (runLoop steps initState).rows.length ≥ 10 then
        dfOfRows (runLoop steps initState).rows
      else create_minimal_test_data

/-! ## Concrete tables used to instantiate the theorems -/

/-- The empty table (`len(df) = 0`). -/
def emptyTable : Table :=
  ⟨0, []⟩

/-- A table whose `Alt` column holds a non-numeric value among at least two
retained entries. -/
def badAltTable : Table :=
  ⟨3, [("Alt", [Value.num 1, Value.str "x", Value.num 2])]⟩

/-- A two-frame battery table with a critically low minimum voltage. -/
def voltTable : Table :=
  ⟨2, [("Volt", [Value.num 12.0, Value.num 10.9])]⟩

/-- The battery findings produced on `voltTable`. -/
def voltIssues : List Finding :=
  [⟨"low_battery_voltage", Severity.critical,
    [("min_voltage", 10.9), ("voltage_drop", 1.1)]⟩,
   ⟨"voltage_drop", Severity.medium,
    [("max_drop_v", 1.1), ("drop_count", 1)]⟩]

/-- A table whose `Lat` values live on rows 0 and 2 and whose `Lng` values
live on rows 1 and 3 — disjoint supports with huge coordinate differences. -/
def splitGpsTable : Table :=
  ⟨4, [("Lat", [Value.num 10, Value.missing, Value.num 90, Value.missing]),
       ("Lng", [Value.missing, Value.num 0, Value.missing, Value.num 50])]⟩

/-- The report `detect_anomalies` produces on the synthetic fallback
dataset: the large-altitude-change finding and the altitude spike at
interior index 3 (rise 85−60=25 > 15, fall 55−85=−30 < −15). -/
def synthReport : Report :=
  ⟨2, "minor",
   [⟨"large_altitude_change", Severity.medium,
     [("max_change_m", 30), ("occurrences", 3)]⟩,
    ⟨"altitude_spike", Severity.medium, [("spike_magnitude_m", 25)]⟩],
   [], [], [], [], []⟩

/-! ## Helper lemmas -/

/-- Rows of `dfOfRows` are rectangular: every column has one cell per row. -/
theorem dfOfRows_WF (rows : List LogRow) : (dfOfRows rows).WF := by
  intro p hp
  simp only [dfOfRows, List.mem_map] at hp
  obtain ⟨c, -, rfl⟩ := hp
  simp [dfOfRows]

/-- The synthetic fallback table is rectangular. -/
theorem create_minimal_test_data_WF : create_minimal_test_data.WF := by
  intro p hp
  simp only [create_minimal_test_data] at hp
  simp only [List.mem_cons, List.not_mem_nil, or_false] at hp
  rcases hp with rfl | rfl | rfl | rfl | rfl <;> rfl

/-! ## C3 / C4: parse-loop contract -/

/-- C3: for every input byte buffer — modelled as every decoder outcome,
including a decoder-level exception at connection time — `parse_bin_to_df`
returns a value (never raises: every exception path of the source is caught,
so the model is a total `Table`-valued function) and that table is non-empty
and well-formed. -/
theorem C3_parse_total_safe (input : ParseInput) :
    0 < (parse_bin_to_df input).nrows ∧ (parse_bin_to_df input).WF := by
  cases input with
  | connFail =>
      exact ⟨by decide, create_minimal_test_data_WF⟩
  | conn steps =>
      simp only [parse_bin_to_df]
      by_cases h : (runLoop steps initState).rows ≠ [] ∧
          (runLoop steps initState).rows.length ≥ 10
      · rw [if_pos h]
        refine ⟨?_, dfOfRows_WF _⟩
        have h10 := h.2
        show 0 < (runLoop steps initState).rows.length
        omega
      · rw [if_neg h]
        exact ⟨by decide, create_minimal_test_data_WF⟩

/-- C4: whenever the loop recovers fewer than 10 valid frames (the empty
input included), the recovered rows are discarded and the fixed synthetic
dataset is returned, with exactly the enumerated column values. -/
theorem C4_fallback_deterministic (steps : List (Bool × LoopStep))
    (h : (runLoop steps initState).rows.length < 10) :
    parse_bin_to_df (ParseInput.conn steps) = create_minimal_test_data ∧
    create_minimal_test_data =
      ⟨5,
       [("TimeUS", [Value.num 0, Value.num 60000000, Value.num 120000000,
                    Value.num 180000000, Value.num 240000000]),
        ("Alt", [Value.num 50.0, Value.num 75.0, Value.num 60.0,
                 Value.num 85.0, Value.num 55.0]),
        ("HDop", [Value.num 1.8, Value.num 1.5, Value.num 1.6,
                  Value.num 2.1, Value.num 1.7]),
        ("Volt", [Value.num 12.6, Value.num 12.4, Value.num 12.2,
                  Value.num 12.0, Value.num 11.8]),
        ("msg_type", [Value.str "GPS", Value.str "GPS", Value.str "GPS",
                      Value.str "GPS", Value.str "GPS"])]⟩ := by
  refine ⟨?_, rfl⟩
  simp only [parse_bin_to_df]
  rw [if_neg]
  intro hc
  omega

/-- Witness for C4 at the empty input. -/
theorem C4_fallback_witness :
    (runLoop [] initState).rows.length < 10 ∧
    parse_bin_to_df (ParseInput.conn []) = create_minimal_test_data :=
  ⟨by decide, (C4_fallback_deterministic [] (by decide)).1⟩

/-! ## C7: short-table early return -/

/-- C7: a table of fewer than 2 frames yields the fixed baseline report. -/
theorem C7_short_table_baseline (ops : FloatOps) (df : Table)
    (h : df.nrows < 2) :
    detect_anomalies ops df = some ⟨0, "normal", [], [], [], [], [], []⟩ := by
  unfold detect_anomalies
  rw [if_pos h]
  rfl

/-- Witness for C7 at the empty table. -/
theorem C7_short_table_witness :
    emptyTable.nrows < 2 ∧
    detect_anomalies idOps emptyTable = some ⟨0, "normal", [], [], [], [], [], []⟩ :=
  ⟨by decide, C7_short_table_baseline idOps emptyTable (by decide)⟩

/-! ## C1: end-to-end report on the synthetic dataset -/

/-- C1 (counterexample): on the fixed synthetic dataset the code does not
report `total_anomalies = 1` — the altitude spike at interior index 3
(rise 25 > 15, fall −30 < −15) is a second finding. -/
theorem C1_counterexample :
    (detect_anomalies idOps create_minimal_test_data).map Report.total_anomalies
      ≠ some 1 := by with_unfolding_all decide

/-- C1 (amended): on the fixed synthetic dataset `detect_anomalies` returns
`total_anomalies = 2`, severity `"minor"`, `altitude_issues` holding exactly
the `large_altitude_change` finding (`max_change_m = 30`, `occurrences = 3`,
severity medium) followed by the `altitude_spike` finding at interior index 3
(`spike_magnitude_m = 25`, severity medium), and all other categories empty —
for every interpretation of the floating-point transcendentals. -/
theorem C1_synthetic_report (ops : FloatOps) :
    detect_anomalies ops create_minimal_test_data = some synthReport := by
  with_unfolding_all rfl

/-! ## Orchestrator inversion and the aggregate invariants (C5, C6) -/

/-- Any report `detect_anomalies` returns is either the short-table baseline
or the aggregation of the six dispatched category lists. -/
theorem detect_anomalies_inv (ops : FloatOps) (df : Table) (r : Report)
    (h : detect_anomalies ops df = some r) :
    r = baselineReport ∨
    ∃ a g b c n, altOpt df = some a ∧ gpsOpt ops df = some g ∧
      batOpt df = some b ∧ ctlOpt df = some c ∧ navOpt df = some n ∧
      r = mkReport a g b c n (sysOpt df) := by
  unfold detect_anomalies at h
  by_cases hn : df.nrows < 2
  · rw [if_pos hn] at h
    exact Or.inl (Option.some_injective _ h).symm
  · rw [if_neg hn] at h
    right
    rcases ha : altOpt df with _ | a <;> rw [ha] at h
    · exact absurd h (by simp)
    rcases hg : gpsOpt ops df with _ | g <;> rw [hg] at h
    · exact absurd h (by simp)
    rcases hb : batOpt df with _ | b <;> rw [hb] at h
    · exact absurd h (by simp)
    rcases hc : ctlOpt df with _ | c <;> rw [hc] at h
    · exact absurd h (by simp)
    rcases hnav : navOpt df with _ | n <;> rw [hnav] at h
    · exact absurd h (by simp)
    exact ⟨a, g, b, c, n, rfl, rfl, rfl, rfl, rfl,
      (Option.some_injective _ h).symm⟩

/-- C5: the overall severity of every returned report is a function of
`total_anomalies` alone, with the exact bands `0 → normal`, `1-2 → minor`,
`3-5 → moderate`, `>5 → critical`. -/
theorem C5_severity_band (ops : FloatOps) (df : Table) (r : Report)
    (h : detect_anomalies ops df = some r) :
    r.severity =
      (if r.total_anomalies = 0 then "normal"
       else if r.total_anomalies ≤ 2 then "minor"
       else if r.total_anomalies ≤ 5 then "moderate"
       else "critical") := by
  rcases detect_anomalies_inv ops df r h with rfl | ⟨a, g, b, c, n, -, -, -, -, -, rfl⟩
  · rfl
  · rfl

/-- Witness for C5 at the empty table. -/
theorem C5_severity_band_witness :
    detect_anomalies idOps emptyTable = some baselineReport ∧
    baselineReport.severity =
      (if baselineReport.total_anomalies = 0 then "normal"
       else if baselineReport.total_anomalies ≤ 2 then "minor"
       else if baselineReport.total_anomalies ≤ 5 then "moderate"
       else "critical") :=
  ⟨by decide, C5_severity_band idOps emptyTable baselineReport (by decide)⟩

/-- C6: in every returned report, `total_anomalies` equals the sum of the
lengths of the six category lists. -/
theorem C6_total_is_sum (ops : FloatOps) (df : Table) (r : Report)
    (h : detect_anomalies ops df = some r) :
    r.total_anomalies =
      r.altitude_issues.length + r.gps_problems.length +
      r.battery_concerns.length + r.control_anomalies.length +
      r.navigation_issues.length + r.system_errors.length := by
  rcases detect_anomalies_inv ops df r h with rfl | ⟨a, g, b, c, n, -, -, -, -, -, rfl⟩
  · rfl
  · rfl

/-- Witness for C6 on the synthetic dataset. -/
theorem C6_total_is_sum_witness :
    detect_anomalies idOps create_minimal_test_data = some synthReport ∧
    synthReport.total_anomalies =
      synthReport.altitude_issues.length + synthReport.gps_problems.length +
      synthReport.battery_concerns.length + synthReport.control_anomalies.length +
      synthReport.navigation_issues.length + synthReport.system_errors.length :=
  ⟨by with_unfolding_all decide,
   C6_total_is_sum idOps create_minimal_test_data synthReport
     (by with_unfolding_all decide)⟩

/-! ## C2: error behaviour on missing / non-numeric cells -/

/-- A cell that pandas statistics tolerate: numeric or missing (a missing
cell is dropped by `dropna`, a numeric one is consumed); a string cell makes
a statistic raise. -/
def isNumOrMissing : Value → Bool
  | Value.num _ => true
  | Value.missing => true
  | Value.str _ => false

/-- The columns on which some analyzer computes a numeric statistic. -/
def numColNames : List String :=
  ["Alt", "HDop", "NSats", "Lat", "Lng", "Volt", "Curr",
   "Roll", "Pitch", "Yaw", "WPDst", "CRt"]

/-- Numeric extraction succeeds on the dropped view of a numeric-or-missing
column. -/
theorem toNums_dropna_isSome (col : List Value)
    (h : col.all isNumOrMissing = true) :
    (toNums (dropna col)).isSome := by
  induction col with
  | nil => rfl
  | cons v rest ih =>
      simp only [List.all_cons, Bool.and_eq_true] at h
      cases v with
      | num q =>
          have : dropna (Value.num q :: rest) = Value.num q :: dropna rest := by
            simp [dropna]
          rw [this]
          obtain ⟨l, hl⟩ := Option.isSome_iff_exists.mp (ih h.2)
          simp [toNums, hl]
      | str s => simp [isNumOrMissing] at h
      | missing =>
          have : dropna (Value.missing :: rest) = dropna rest := by
            simp [dropna]
          rw [this]
          exact ih h.2

/-- Indexed numeric extraction succeeds when every carried cell is numeric. -/
theorem toNumsIdx_isSome (l : List (Nat × Value))
    (h : ∀ p ∈ l, ∃ q, p.2 = Value.num q) :
    (toNumsIdx l).isSome := by
  induction l with
  | nil => rfl
  | cons p rest ih =>
      obtain ⟨i, v⟩ := p
      obtain ⟨q, hq⟩ := h (i, v) (List.mem_cons_self _ _)
      subst hq
      have hrest := ih (fun p hp => h p (List.mem_cons_of_mem _ hp))
      obtain ⟨l2, hl2⟩ := Option.isSome_iff_exists.mp hrest
      simp [toNumsIdx, hl2]

/-- Every cell carried by `colIdx` is a cell of the column. -/
theorem mem_of_mem_colIdx (col : List Value) (p : Nat × Value)
    (hp : p ∈ colIdx col) : p.2 ∈ col := by
  simp only [colIdx, List.mem_filter] at hp
  have := List.mem_enum_iff_getElem?.mp hp.1
  exact List.getElem?_mem this

/-- Indexed numeric extraction succeeds on a numeric-or-missing column. -/
theorem toNumsIdx_colIdx_isSome (col : List Value)
    (h : col.all isNumOrMissing = true) :
    (toNumsIdx (colIdx col)).isSome := by
  apply toNumsIdx_isSome
  intro p hp
  have hv : p.2 ∈ col := mem_of_mem_colIdx col p hp
  have hnm : isNumOrMissing p.2 = true := by
    rw [List.all_eq_true] at h
    exact h _ hv
  have hne : p.2 ≠ Value.missing := by
    simp only [colIdx, List.mem_filter, decide_eq_true_eq] at hp
    exact hp.2
  cases hpv : p.2 with
  | num q => exact ⟨q, rfl⟩
  | str s => rw [hpv] at hnm; simp [isNumOrMissing] at hnm
  | missing => exact absurd hpv hne

/-- The altitude category never raises on a numeric-or-missing `Alt` column. -/
theorem altOpt_isSome (df : Table)
    (h : (df.getCol "Alt").all isNumOrMissing = true) :
    (altOpt df).isSome := by
  unfold altOpt analyze_altitude_anomalies
  split
  · dsimp only
    split
    · rfl
    · obtain ⟨l, hl⟩ := Option.isSome_iff_exists.mp (toNums_dropna_isSome _ h)
      simp [hl]
  · rfl

/-- The HDop block never raises on a numeric-or-missing `HDop` column. -/
theorem hdopPart_isSome (df : Table)
    (h : (df.getCol "HDop").all isNumOrMissing = true) :
    (hdopPart df).isSome := by
  unfold hdopPart
  split
  · dsimp only
    split
    · obtain ⟨l, hl⟩ := Option.isSome_iff_exists.mp (toNums_dropna_isSome _ h)
      simp [hl]
    · rfl
  · rfl

/-- The NSats block never raises on a numeric-or-missing `NSats` column. -/
theorem nsatsPart_isSome (df : Table)
    (h : (df.getCol "NSats").all isNumOrMissing = true) :
    (nsatsPart df).isSome := by
  unfold nsatsPart
  split
  · dsimp only
    split
    · obtain ⟨l, hl⟩ := Option.isSome_iff_exists.mp (toNums_dropna_isSome _ h)
      simp [hl]
    · rfl
  · rfl

/-- The position-jump block never raises on numeric-or-missing `Lat` and
`Lng` columns. -/
theorem jumpPart_isSome (ops : FloatOps) (df : Table)
    (hla : (df.getCol "Lat").all isNumOrMissing = true)
    (hln : (df.getCol "Lng").all isNumOrMissing = true) :
    (jumpPart ops df).isSome := by
  unfold jumpPart
  split
  · dsimp only
    split
    · obtain ⟨l1, hl1⟩ :=
        Option.isSome_iff_exists.mp (toNumsIdx_colIdx_isSome _ hla)
      obtain ⟨l2, hl2⟩ :=
        Option.isSome_iff_exists.mp (toNumsIdx_colIdx_isSome _ hln)
      rw [hl1, hl2]
      dsimp only
      split <;> rfl
    · rfl
  · rfl

/-- The GPS category never raises on numeric-or-missing GPS columns. -/
theorem gpsOpt_isSome (ops : FloatOps) (df : Table)
    (hh : (df.getCol "HDop").all isNumOrMissing = true)
    (hn : (df.getCol "NSats").all isNumOrMissing = true)
    (hla : (df.getCol "Lat").all isNumOrMissing = true)
    (hln : (df.getCol "Lng").all isNumOrMissing = true) :
    (gpsOpt ops df).isSome := by
  unfold gpsOpt analyze_gps_anomalies
  split
  · obtain ⟨l1, hl1⟩ := Option.isSome_iff_exists.mp (hdopPart_isSome df hh)
    obtain ⟨l2, hl2⟩ := Option.isSome_iff_exists.mp (nsatsPart_isSome df hn)
    obtain ⟨l3, hl3⟩ := Option.isSome_iff_exists.mp (jumpPart_isSome ops df hla hln)
    rw [hl1, hl2, hl3]
    rfl
  · rfl

/-- The voltage block never raises on a numeric-or-missing `Volt` column. -/
theorem voltPart_isSome (df : Table)
    (h : (df.getCol "Volt").all isNumOrMissing = true) :
    (voltPart df).isSome := by
  unfold voltPart
  split
  · dsimp only
    split
    · obtain ⟨l, hl⟩ := Option.isSome_iff_exists.mp (toNums_dropna_isSome _ h)
      simp [hl]
    · rfl
  · rfl

/-- The current block never raises on a numeric-or-missing `Curr` column. -/
theorem currPart_isSome (df : Table)
    (h : (df.getCol "Curr").all isNumOrMissing = true) :
    (currPart df).isSome := by
  unfold currPart
  split
  · dsimp only
    split
    · obtain ⟨l, hl⟩ := Option.isSome_iff_exists.mp (toNums_dropna_isSome _ h)
      simp [hl]
    · rfl
  · rfl

/-- The battery category never raises on numeric-or-missing battery columns. -/
theorem batOpt_isSome (df : Table)
    (hv : (df.getCol "Volt").all isNumOrMissing = true)
    (hc : (df.getCol "Curr").all isNumOrMissing = true) :
    (batOpt df).isSome := by
  unfold batOpt analyze_battery_anomalies
  split
  · obtain ⟨l1, hl1⟩ := Option.isSome_iff_exists.mp (voltPart_isSome df hv)
    obtain ⟨l2, hl2⟩ := Option.isSome_iff_exists.mp (currPart_isSome df hc)
    rw [hl1, hl2]
    rfl
  · rfl

/-- An axis iteration never raises on a numeric-or-missing axis column. -/
theorem axisPart_isSome (df : Table) (axis : String)
    (h : (df.getCol axis).all isNumOrMissing = true) :
    (axisPart df axis).isSome := by
  unfold axisPart
  split
  · dsimp only
    split
    · obtain ⟨l, hl⟩ := Option.isSome_iff_exists.mp (toNums_dropna_isSome _ h)
      simp [hl]
    · rfl
  · rfl

/-- The control category never raises on numeric-or-missing attitude columns. -/
theorem ctlOpt_isSome (df : Table)
    (hr : (df.getCol "Roll").all isNumOrMissing = true)
    (hp : (df.getCol "Pitch").all isNumOrMissing = true)
    (hy : (df.getCol "Yaw").all isNumOrMissing = true) :
    (ctlOpt df).isSome := by
  unfold ctlOpt analyze_control_anomalies
  split
  · obtain ⟨l1, hl1⟩ := Option.isSome_iff_exists.mp (axisPart_isSome df "Roll" hr)
    obtain ⟨l2, hl2⟩ := Option.isSome_iff_exists.mp (axisPart_isSome df "Pitch" hp)
    obtain ⟨l3, hl3⟩ := Option.isSome_iff_exists.mp (axisPart_isSome df "Yaw" hy)
    rw [hl1, hl2, hl3]
    rfl
  · rfl

/-- The waypoint block never raises on a numeric-or-missing `WPDst` column. -/
theorem wpPart_isSome (df : Table)
    (h : (df.getCol "WPDst").all isNumOrMissing = true) :
    (wpPart df).isSome := by
  unfold wpPart
  split
  · dsimp only
    split
    · obtain ⟨l, hl⟩ := Option.isSome_iff_exists.mp (toNums_dropna_isSome _ h)
      simp [hl]
    · rfl
  · rfl

/-- The climb-rate block never raises on a numeric-or-missing `CRt` column. -/
theorem crtPart_isSome (df : Table)
    (h : (df.getCol "CRt").all isNumOrMissing = true) :
    (crtPart df).isSome := by
  unfold crtPart
  split
  · dsimp only
    split
    · obtain ⟨l, hl⟩ := Option.isSome_iff_exists.mp (toNums_dropna_isSome _ h)
      simp [hl]
    · rfl
  · rfl

/-- The navigation category never raises on numeric-or-missing columns. -/
theorem navOpt_isSome (df : Table)
    (hw : (df.getCol "WPDst").all isNumOrMissing = true)
    (hc : (df.getCol "CRt").all isNumOrMissing = true) :
    (navOpt df).isSome := by
  unfold navOpt analyze_navigation_anomalies
  split
  · obtain ⟨l1, hl1⟩ := Option.isSome_iff_exists.mp (wpPart_isSome df hw)
    obtain ⟨l2, hl2⟩ := Option.isSome_iff_exists.mp (crtPart_isSome df hc)
    rw [hl1, hl2]
    rfl
  · rfl

/-- C2 (amended, positive part): when every analyzed column holds only
numeric or missing cells, the missing cells are dropped by each analyzer
before any statistic and `detect_anomalies` never raises. -/
theorem C2_numeric_no_error (ops : FloatOps) (df : Table)
    (h : numColNames.all (fun c => (df.getCol c).all isNumOrMissing) = true) :
    (detect_anomalies ops df).isSome := by
  simp only [numColNames, List.all_cons, List.all_nil, Bool.and_eq_true,
    and_true] at h
  obtain ⟨hAlt, hHDop, hNSats, hLat, hLng, hVolt, hCurr, hRoll, hPitch,
    hYaw, hWP, hCRt⟩ := h
  unfold detect_anomalies
  split
  · rfl
  · obtain ⟨a, ha⟩ := Option.isSome_iff_exists.mp (altOpt_isSome df hAlt)
    obtain ⟨g, hg⟩ :=
      Option.isSome_iff_exists.mp (gpsOpt_isSome ops df hHDop hNSats hLat hLng)
    obtain ⟨b, hb⟩ := Option.isSome_iff_exists.mp (batOpt_isSome df hVolt hCurr)
    obtain ⟨c, hc⟩ :=
      Option.isSome_iff_exists.mp (ctlOpt_isSome df hRoll hPitch hYaw)
    obtain ⟨n, hn⟩ := Option.isSome_iff_exists.mp (navOpt_isSome df hWP hCRt)
    rw [ha, hg, hb, hc, hn]
    rfl

/-- C2 (counterexample): a non-numeric value in a required column is not
removed — with `Alt = [1, "x", 2]` the altitude statistic raises and
`detect_anomalies` errors (model: returns `none`). -/
theorem C2_counterexample :
    detect_anomalies idOps badAltTable = none := by
  with_unfolding_all decide

/-- Witness for C2 on the synthetic dataset (whose analyzed columns are all
numeric). -/
theorem C2_numeric_no_error_witness :
    (numColNames.all
      (fun c => (create_minimal_test_data.getCol c).all isNumOrMissing) = true) ∧
    (detect_anomalies idOps create_minimal_test_data).isSome :=
  ⟨by decide, C2_numeric_no_error idOps create_minimal_test_data (by decide)⟩

/-! ## C8: voltage-level finding priority -/

/-- Numeric extraction preserves length. -/
theorem toNums_length (l : List Value) (vs : List ℚ)
    (h : toNums l = some vs) : vs.length = l.length := by
  induction l generalizing vs with
  | nil =>
      simp only [toNums] at h
      cases h
      rfl
  | cons v rest ih =>
      cases v with
      | num q =>
          simp only [toNums, Option.map_eq_some'] at h
          obtain ⟨l2, hl2, rfl⟩ := h
          simp [ih l2 hl2]
      | str s => simp [toNums] at h
      | missing => simp [toNums] at h

/-- Every finding of the current block is a `high_current_draw` finding. -/
theorem currPart_ftypes (df : Table) (c : List Finding)
    (h : currPart df = some c) :
    ∀ f ∈ c, f.ftype = "high_current_draw" := by
  unfold currPart at h
  split at h
  · dsimp only at h
    split at h
    · rcases ht : toNums (dropna (df.getCol "Curr")) with _ | l <;> rw [ht] at h
      · cases h
      · cases h
        unfold curr_core
        split
        · intro f hf
          simp only [List.mem_singleton] at hf
          subst hf
          rfl
        · intro f hf
          simp at hf
    · cases h
      intro f hf
      simp at hf
  · cases h
    intro f hf
    simp at hf

/-- C8: among the findings of the battery analyzer, the two voltage-level
findings are mutually exclusive and chosen by priority on the minimum
voltage: below 11.1 the critical `low_battery_voltage` finding (with
`voltage_drop = max − min`), otherwise below 11.5 the medium
`low_battery_warning` finding, otherwise neither. -/
theorem C8_voltage_priority (df : Table) (issues : List Finding) (vs : List ℚ)
    (hb : analyze_battery_anomalies df = some issues)
    (hv : df.hasCol "Volt" = true)
    (hn : toNums (dropna (df.getCol "Volt")) = some vs)
    (hne : vs ≠ []) :
    issues.filter
      (fun f => decide (f.ftype = "low_battery_voltage" ∨
                        f.ftype = "low_battery_warning")) =
      (if qmin vs < 11.1 then
        [⟨"low_battery_voltage", Severity.critical,
          [("min_voltage", qmin vs), ("voltage_drop", qmax vs - qmin vs)]⟩]
       else if qmin vs < 11.5 then
        [⟨"low_battery_warning", Severity.medium, [("min_voltage", qmin vs)]⟩]
       else []) := by
  unfold analyze_battery_anomalies at hb
  rcases hV : voltPart df with _ | v <;> rw [hV] at hb
  · cases hb
  rcases hC : currPart df with _ | c <;> rw [hC] at hb
  · cases hb
  cases hb
  have hlen : 0 < (dropna (df.getCol "Volt")).length := by
    have := toNums_length _ _ hn
    have hvs : 0 < vs.length := List.length_pos.mpr hne
    omega
  unfold voltPart at hV
  rw [if_pos hv] at hV
  dsimp only at hV
  rw [if_pos hlen, hn] at hV
  cases hV
  rw [List.filter_append]
  have hcfil : c.filter
      (fun f => decide (f.ftype = "low_battery_voltage" ∨
                        f.ftype = "low_battery_warning")) = [] := by
    rw [List.filter_eq_nil_iff]
    intro f hf
    have := currPart_ftypes df c hC f hf
    simp [this]
  rw [hcfil, List.append_nil]
  unfold volt_core
  rw [List.filter_append]
  have hdfil : ∀ l2 : List Finding,
      (let vd := diffs vs
       let drops := vd.filter (fun q => decide (q < -0.5))
       if drops = [] then []
       else
         [⟨"voltage_drop", Severity.medium,
           [("max_drop_v", |qmin vd|), ("drop_count", (drops.length : ℚ))]⟩]) = l2 →
      l2.filter
        (fun f => decide (f.ftype = "low_battery_voltage" ∨
                          f.ftype = "low_battery_warning")) = [] := by
    intro l2 hl2
    rw [List.filter_eq_nil_iff]
    intro f hf
    dsimp only at hl2
    split at hl2 <;> subst hl2
    · simp at hf
    · simp only [List.mem_singleton] at hf
      subst hf
      simp
  rw [hdfil _ rfl, List.append_nil]
  split
  · simp
  · split
    · simp
    · simp

/-- Witness for C8 on a two-frame table with a critically low voltage. -/
theorem C8_voltage_priority_witness :
    analyze_battery_anomalies voltTable = some voltIssues ∧
    voltTable.hasCol "Volt" = true ∧
    toNums (dropna (voltTable.getCol "Volt")) = some [12.0, 10.9] ∧
    ([12.0, 10.9] : List ℚ) ≠ [] ∧
    voltIssues.filter
      (fun f => decide (f.ftype = "low_battery_voltage" ∨
                        f.ftype = "low_battery_warning")) =
      (if qmin [12.0, 10.9] < 11.1 then
        [⟨"low_battery_voltage", Severity.critical,
          [("min_voltage", qmin [12.0, 10.9]),
           ("voltage_drop", qmax [12.0, 10.9] - qmin [12.0, 10.9])]⟩]
       else if qmin [12.0, 10.9] < 11.5 then
        [⟨"low_battery_warning", Severity.medium,
          [("min_voltage", qmin [12.0, 10.9])]⟩]
       else []) :=
  ⟨by with_unfolding_all decide, by decide, by with_unfolding_all decide,
   by with_unfolding_all decide,
   C8_voltage_priority voltTable voltIssues [12.0, 10.9]
     (by with_unfolding_all decide) (by decide)
     (by with_unfolding_all decide) (by with_unfolding_all decide)⟩

/-! ## C9: no analyzer ever emits a "low" severity -/

/-- Elimination for the analyzer blocks guarded as
`if present then (if enough then map core else []) else []`. -/
theorem part_elim {p q : Prop} [Decidable p] [Decidable q] (x : List Value)
    (core : List ℚ → List Finding) (l : List Finding)
    (h : (if p then (if q then (toNums x).map core else some [])
          else some []) = some l) :
    l = [] ∨ ∃ nums, toNums x = some nums ∧ l = core nums := by
  split at h
  · split at h
    · rcases ht : toNums x with _ | nums <;> rw [ht] at h
      · cases h
      · cases h
        exact Or.inr ⟨nums, rfl, rfl⟩
    · cases h
      exact Or.inl rfl
  · cases h
    exact Or.inl rfl

/-- Every altitude-spike finding is medium-severity. -/
theorem spikeFindings_sev : ∀ (l : List ℚ), ∀ f ∈ spikeFindings l,
    f.severity = Severity.medium
  | [], f, hf => by simp [spikeFindings] at hf
  | [_], f, hf => by simp [spikeFindings] at hf
  | [_, _], f, hf => by simp [spikeFindings] at hf
  | a :: b :: c :: rest, f, hf => by
      simp only [spikeFindings, List.mem_append] at hf
      rcases hf with hf | hf
      · split at hf
        · simp only [List.mem_singleton] at hf
          subst hf
          rfl
        · simp at hf
      · exact spikeFindings_sev (b :: c :: rest) f hf

/-- The altitude body never emits a low severity. -/
theorem altitude_core_sev (alt : List ℚ) (f : Finding)
    (hf : f ∈ altitude_core alt) : f.severity ≠ Severity.low := by
  unfold altitude_core at hf
  dsimp only at hf
  simp only [List.mem_append] at hf
  rcases hf with (hf | hf) | hf
  · split at hf
    · simp at hf
    · simp only [List.mem_singleton] at hf
      subst hf
      dsimp only
      split <;> simp
  · rw [spikeFindings_sev alt f hf]
    simp
  · split at hf
    · simp only [List.mem_singleton] at hf
      subst hf
      simp
    · simp at hf

/-- The HDop body never emits a low severity. -/
theorem hdop_core_sev (hs : List ℚ) (f : Finding)
    (hf : f ∈ hdop_core hs) : f.severity ≠ Severity.low := by
  unfold hdop_core at hf
  dsimp only at hf
  split at hf
  · simp at hf
  · simp only [List.mem_singleton] at hf
    subst hf
    dsimp only
    split <;> simp

/-- The NSats body never emits a low severity. -/
theorem nsats_core_sev (ns : List ℚ) (f : Finding)
    (hf : f ∈ nsats_core ns) : f.severity ≠ Severity.low := by
  unfold nsats_core at hf
  dsimp only at hf
  split at hf
  · simp at hf
  · simp only [List.mem_singleton] at hf
    subst hf
    simp

/-- The voltage body never emits a low severity. -/
theorem volt_core_sev (vs : List ℚ) (f : Finding)
    (hf : f ∈ volt_core vs) : f.severity ≠ Severity.low := by
  unfold volt_core at hf
  simp only [List.mem_append] at hf
  rcases hf with hf | hf
  · split at hf
    · simp only [List.mem_singleton] at hf
      subst hf
      simp
    · split at hf
      · simp only [List.mem_singleton] at hf
        subst hf
        simp
      · simp at hf
  · split at hf
    · simp at hf
    · simp only [List.mem_singleton] at hf
      subst hf
      simp

/-- The current body never emits a low severity. -/
theorem curr_core_sev (cs : List ℚ) (f : Finding)
    (hf : f ∈ curr_core cs) : f.severity ≠ Severity.low := by
  unfold curr_core at hf
  split at hf
  · simp only [List.mem_singleton] at hf
    subst hf
    simp
  · simp at hf

/-- The per-axis body never emits a low severity. -/
theorem axis_core_sev (axis : String) (vs : List ℚ) (f : Finding)
    (hf : f ∈ axis_core axis vs) : f.severity ≠ Severity.low := by
  unfold axis_core at hf
  dsimp only at hf
  simp only [List.mem_append] at hf
  rcases hf with hf | hf
  · split at hf
    · simp at hf
    · simp only [List.mem_singleton] at hf
      subst hf
      dsimp only
      split <;> simp
  · split at hf
    · simp only [List.mem_singleton] at hf
      subst hf
      simp
    · simp at hf

/-- The waypoint body never emits a low severity. -/
theorem wp_core_sev (ws : List ℚ) (f : Finding)
    (hf : f ∈ wp_core ws) : f.severity ≠ Severity.low := by
  unfold wp_core at hf
  dsimp only at hf
  split at hf
  · simp only [List.mem_singleton] at hf
    subst hf
    simp
  · simp at hf

/-- The climb-rate body never emits a low severity. -/
theorem crt_core_sev (cs : List ℚ) (f : Finding)
    (hf : f ∈ crt_core cs) : f.severity ≠ Severity.low := by
  unfold crt_core at hf
  dsimp only at hf
  split at hf
  · simp only [List.mem_singleton] at hf
    subst hf
    simp
  · simp at hf

/-- The system-event analyzer never emits a low severity. -/
theorem analyze_system_errors_sev (df : Table) (f : Finding)
    (hf : f ∈ analyze_system_errors df) : f.severity ≠ Severity.low := by
  unfold analyze_system_errors at hf
  split at hf
  · dsimp only at hf
    simp only [List.mem_append] at hf
    rcases hf with hf | hf
    · split at hf
      · simp only [List.mem_singleton] at hf
        subst hf
        simp
      · simp at hf
    · split at hf
      · simp only [List.mem_singleton] at hf
        subst hf
        simp
      · simp at hf
  · simp at hf

/-- The position-jump block never emits a low severity. -/
theorem jumpPart_sev (ops : FloatOps) (df : Table) (j : List Finding)
    (h : jumpPart ops df = some j) (f : Finding) (hf : f ∈ j) :
    f.severity ≠ Severity.low := by
  unfold jumpPart at h
  split at h
  · dsimp only at h
    split at h
    · rcases h1 : toNumsIdx (colIdx (df.getCol "Lat")) with _ | lat <;>
        rw [h1] at h
      · cases h
      rcases h2 : toNumsIdx (colIdx (df.getCol "Lng")) with _ | lng <;>
        rw [h2] at h
      · cases h
      dsimp only at h
      split at h
      · cases h
        simp only [List.mem_singleton] at hf
        subst hf
        simp
      · cases h
        simp at hf
    · cases h
      simp at hf
  · cases h
    simp at hf

/-- The altitude category never emits a low severity. -/
theorem altOpt_sev (df : Table) (a : List Finding) (h : altOpt df = some a)
    (f : Finding) (hf : f ∈ a) : f.severity ≠ Severity.low := by
  unfold altOpt analyze_altitude_anomalies at h
  dsimp only at h
  split at h
  · split at h
    · cases h
      simp at hf
    · rcases ht : toNums (dropna (df.getCol "Alt")) with _ | nums <;>
        rw [ht] at h
      · cases h
      · cases h
        exact altitude_core_sev nums f hf
  · cases h
    simp at hf

/-- The GPS category never emits a low severity. -/
theorem gpsOpt_sev (ops : FloatOps) (df : Table) (g : List Finding)
    (h : gpsOpt ops df = some g) (f : Finding) (hf : f ∈ g) :
    f.severity ≠ Severity.low := by
  unfold gpsOpt at h
  split at h
  · unfold analyze_gps_anomalies at h
    rcases h1 : hdopPart df with _ | l1 <;> rw [h1] at h
    · cases h
    rcases h2 : nsatsPart df with _ | l2 <;> rw [h2] at h
    · cases h
    rcases h3 : jumpPart ops df with _ | l3 <;> rw [h3] at h
    · cases h
    cases h
    simp only [List.mem_append] at hf
    rcases hf with (hf | hf) | hf
    · unfold hdopPart at h1
      rcases part_elim _ hdop_core l1 h1 with rfl | ⟨nums, -, rfl⟩
      · simp at hf
      · exact hdop_core_sev nums f hf
    · unfold nsatsPart at h2
      rcases part_elim _ nsats_core l2 h2 with rfl | ⟨nums, -, rfl⟩
      · simp at hf
      · exact nsats_core_sev nums f hf
    · exact jumpPart_sev ops df l3 h3 f hf
  · cases h
    simp at hf

/-- The battery category never emits a low severity. -/
theorem batOpt_sev (df : Table) (b : List Finding) (h : batOpt df = some b)
    (f : Finding) (hf : f ∈ b) : f.severity ≠ Severity.low := by
  unfold batOpt at h
  split at h
  · unfold analyze_battery_anomalies at h
    rcases h1 : voltPart df with _ | l1 <;> rw [h1] at h
    · cases h
    rcases h2 : currPart df with _ | l2 <;> rw [h2] at h
    · cases h
    cases h
    simp only [List.mem_append] at hf
    rcases hf with hf | hf
    · unfold voltPart at h1
      rcases part_elim _ volt_core l1 h1 with rfl | ⟨nums, -, rfl⟩
      · simp at hf
      · exact volt_core_sev nums f hf
    · unfold currPart at h2
      rcases part_elim _ curr_core l2 h2 with rfl | ⟨nums, -, rfl⟩
      · simp at hf
      · exact curr_core_sev nums f hf
  · cases h
    simp at hf

/-- The control category never emits a low severity. -/
theorem ctlOpt_sev (df : Table) (c : List Finding) (h : ctlOpt df = some c)
    (f : Finding) (hf : f ∈ c) : f.severity ≠ Severity.low := by
  unfold ctlOpt at h
  split at h
  · unfold analyze_control_anomalies at h
    rcases h1 : axisPart df "Roll" with _ | l1 <;> rw [h1] at h
    · cases h
    rcases h2 : axisPart df "Pitch" with _ | l2 <;> rw [h2] at h
    · cases h
    rcases h3 : axisPart df "Yaw" with _ | l3 <;> rw [h3] at h
    · cases h
    cases h
    simp only [List.mem_append] at hf
    rcases hf with (hf | hf) | hf
    · unfold axisPart at h1
      rcases part_elim _ (axis_core "Roll") l1 h1 with rfl | ⟨nums, -, rfl⟩
      · simp at hf
      · exact axis_core_sev "Roll" nums f hf
    · unfold axisPart at h2
      rcases part_elim _ (axis_core "Pitch") l2 h2 with rfl | ⟨nums, -, rfl⟩
      · simp at hf
      · exact axis_core_sev "Pitch" nums f hf
    · unfold axisPart at h3
      rcases part_elim _ (axis_core "Yaw") l3 h3 with rfl | ⟨nums, -, rfl⟩
      · simp at hf
      · exact axis_core_sev "Yaw" nums f hf
  · cases h
    simp at hf

/-- The navigation category never emits a low severity. -/
theorem navOpt_sev (df : Table) (n : List Finding) (h : navOpt df = some n)
    (f : Finding) (hf : f ∈ n) : f.severity ≠ Severity.low := by
  unfold navOpt at h
  split at h
  · unfold analyze_navigation_anomalies at h
    rcases h1 : wpPart df with _ | l1 <;> rw [h1] at h
    · cases h
    rcases h2 : crtPart df with _ | l2 <;> rw [h2] at h
    · cases h
    cases h
    simp only [List.mem_append] at hf
    rcases hf with hf | hf
    · unfold wpPart at h1
      rcases part_elim _ wp_core l1 h1 with rfl | ⟨nums, -, rfl⟩
      · simp at hf
      · exact wp_core_sev nums f hf
    · unfold crtPart at h2
      rcases part_elim _ crt_core l2 h2 with rfl | ⟨nums, -, rfl⟩
      · simp at hf
      · exact crt_core_sev nums f hf
  · cases h
    simp at hf

/-- The system-error category never emits a low severity. -/
theorem sysOpt_sev (df : Table) (f : Finding) (hf : f ∈ sysOpt df) :
    f.severity ≠ Severity.low := by
  unfold sysOpt at hf
  split at hf
  · exact analyze_system_errors_sev df f hf
  · simp at hf

/-- C9: every finding of every category of every returned report has
severity in {medium, high, critical} — "low" is never emitted. -/
theorem C9_no_low_severity (ops : FloatOps) (df : Table) (r : Report)
    (h : detect_anomalies ops df = some r) (f : Finding)
    (hf : f ∈ r.altitude_issues ++ r.gps_problems ++ r.battery_concerns ++
          r.control_anomalies ++ r.navigation_issues ++ r.system_errors) :
    f.severity ∈ [Severity.medium, Severity.high, Severity.critical] := by
  have hne : f.severity ≠ Severity.low := by
    rcases detect_anomalies_inv ops df r h with rfl |
      ⟨a, g, b, c, n, ha, hg, hb, hc, hn, rfl⟩
    · simp [baselineReport] at hf
    · simp only [mkReport, List.mem_append] at hf
      rcases hf with ((((hf | hf) | hf) | hf) | hf) | hf
      · exact altOpt_sev df a ha f hf
      · exact gpsOpt_sev ops df g hg f hf
      · exact batOpt_sev df b hb f hf
      · exact ctlOpt_sev df c hc f hf
      · exact navOpt_sev df n hn f hf
      · exact sysOpt_sev df f hf
  cases hs : f.severity with
  | low => exact absurd hs hne
  | medium => simp
  | high => simp
  | critical => simp

/-- Witness for C9 at the synthetic dataset and its first altitude finding. -/
theorem C9_no_low_severity_witness :
    detect_anomalies idOps create_minimal_test_data = some synthReport ∧
    (⟨"large_altitude_change", Severity.medium,
      [("max_change_m", 30), ("occurrences", 3)]⟩ : Finding) ∈
      (synthReport.altitude_issues ++ synthReport.gps_problems ++
       synthReport.battery_concerns ++ synthReport.control_anomalies ++
       synthReport.navigation_issues ++ synthReport.system_errors) ∧
    (⟨"large_altitude_change", Severity.medium,
      [("max_change_m", 30), ("occurrences", 3)]⟩ : Finding).severity ∈
      [Severity.medium, Severity.high, Severity.critical] :=
  ⟨by with_unfolding_all decide, by with_unfolding_all decide,
   C9_no_low_severity idOps create_minimal_test_data synthReport
     (by with_unfolding_all decide) _ (by with_unfolding_all decide)⟩

/-! ## C10: position jumps need both coordinates on the same rows -/

/-- Indexed numeric extraction preserves the row labels. -/
theorem toNumsIdx_fst (l : List (Nat × Value)) (l2 : List (Nat × ℚ))
    (h : toNumsIdx l = some l2) : l2.map Prod.fst = l.map Prod.fst := by
  induction l generalizing l2 with
  | nil =>
      simp only [toNumsIdx] at h
      cases h
      rfl
  | cons p rest ih =>
      obtain ⟨i, v⟩ := p
      cases v with
      | num q =>
          simp only [toNumsIdx, Option.map_eq_some'] at h
          obtain ⟨l3, h3, rfl⟩ := h
          simp [ih l3 h3]
      | str s => simp [toNumsIdx] at h
      | missing => simp [toNumsIdx] at h

/-- Every label of the defined diff entries is a label of the series. -/
theorem idiffs_fst : ∀ (l : List (Nat × ℚ)), ∀ p ∈ idiffs l,
    p.1 ∈ l.map Prod.fst
  | [], p, hp => by simp [idiffs] at hp
  | [_], p, hp => by simp [idiffs] at hp
  | a :: b :: rest, p, hp => by
      simp only [idiffs, List.mem_cons] at hp
      rcases hp with rfl | hp
      · simp
      · have := idiffs_fst (b :: rest) p hp
        simp only [List.map_cons, List.mem_cons] at this ⊢
        tauto

/-- A label absent from a key-value list looks up to `none` (a pandas label
present on one side only yields a missing aligned entry). -/
theorem lookup_none {β : Type} (l : List (Nat × β)) (i : Nat)
    (h : i ∉ l.map Prod.fst) : l.lookup i = none := by
  induction l with
  | nil => rfl
  | cons p rest ih =>
      obtain ⟨a, b⟩ := p
      simp only [List.map_cons, List.mem_cons, not_or] at h
      have hne : (i == a) = false := beq_false_of_ne h.1
      simp [List.lookup, hne, ih h.2]

/-- Every finding of the HDop block is a `poor_gps_accuracy` finding. -/
theorem hdop_core_ftypes (hs : List ℚ) (f : Finding)
    (hf : f ∈ hdop_core hs) : f.ftype = "poor_gps_accuracy" := by
  unfold hdop_core at hf
  dsimp only at hf
  split at hf
  · simp at hf
  · simp only [List.mem_singleton] at hf
    subst hf
    rfl

/-- Every finding of the NSats block is an `insufficient_satellites`
finding. -/
theorem nsats_core_ftypes (ns : List ℚ) (f : Finding)
    (hf : f ∈ nsats_core ns) : f.ftype = "insufficient_satellites" := by
  unfold nsats_core at hf
  dsimp only at hf
  split at hf
  · simp at hf
  · simp only [List.mem_singleton] at hf
    subst hf
    rfl

/-- With disjoint `Lat`/`Lng` row labels every aligned step distance is
missing: the per-label lookup fails for every defined latitude diff, so the
distance series is empty.  (`c` stands for the cosine scale factor.) -/
theorem aligned_distance_nil (ops : FloatOps) (lat lng : List (Nat × ℚ))
    (c : ℚ) (hsub : ∀ i ∈ lat.map Prod.fst, i ∉ lng.map Prod.fst) :
    List.filterMap
      (fun p => (List.lookup p.1
          ((idiffs lng).map (fun p2 => (p2.1, p2.2 * 111000 * c)))).map
        (fun b => ops.sqrt (p.2 * p.2 + b * b)))
      ((idiffs lat).map (fun p => (p.1, p.2 * 111000))) = [] := by
  rw [List.filterMap_eq_nil_iff]
  intro p hp
  have hp1 : p.1 ∈ lat.map Prod.fst := by
    simp only [List.mem_map] at hp
    obtain ⟨p0, hp0, rfl⟩ := hp
    exact idiffs_fst lat p0 hp0
  have hnot : p.1 ∉
      ((idiffs lng).map (fun p2 => (p2.1, p2.2 * 111000 * c))).map Prod.fst := by
    intro hmem
    apply hsub p.1 hp1
    simp only [List.map_map, List.mem_map, Function.comp] at hmem
    obtain ⟨p0, hp0, hfst⟩ := hmem
    have := idiffs_fst lng p0 hp0
    rw [← hfst]
    exact this
  rw [lookup_none _ _ hnot]
  rfl

/-- When no row carries both a `Lat` and a `Lng` value, the position-jump
block emits nothing. -/
theorem jumpPart_disjoint (ops : FloatOps) (df : Table) (j : List Finding)
    (h : jumpPart ops df = some j)
    (hd : ∀ i ∈ support (df.getCol "Lat"), i ∉ support (df.getCol "Lng")) :
    j = [] := by
  unfold jumpPart at h
  split at h
  · dsimp only at h
    split at h
    · rcases h1 : toNumsIdx (colIdx (df.getCol "Lat")) with _ | lat <;>
        rw [h1] at h
      · cases h
      rcases h2 : toNumsIdx (colIdx (df.getCol "Lng")) with _ | lng <;>
        rw [h2] at h
      · cases h
      have hsub : ∀ i ∈ lat.map Prod.fst, i ∉ lng.map Prod.fst := by
        intro i hi
        rw [toNumsIdx_fst _ _ h1] at hi
        intro hlng
        rw [toNumsIdx_fst _ _ h2] at hlng
        exact hd i hi hlng
      dsimp only at h
      split at h
      · rename_i hq
        exfalso
        rw [aligned_distance_nil ops lat lng
          (ops.cosDeg (qmean (lat.map Prod.snd))) hsub] at hq
        simp at hq
      · cases h
        rfl
    · cases h
      rfl
  · cases h
    rfl

/-- C10: when the rows carrying `Lat` values and the rows carrying `Lng`
values are disjoint (each column still holding at least 2 values), the GPS
analyzer never emits a `gps_position_jump` finding, whatever the coordinate
differences are. -/
theorem C10_disjoint_no_jump (ops : FloatOps) (df : Table)
    (issues : List Finding)
    (h : analyze_gps_anomalies ops df = some issues)
    (hd : ∀ i ∈ support (df.getCol "Lat"), i ∉ support (df.getCol "Lng"))
    (_h2a : 2 ≤ (dropna (df.getCol "Lat")).length)
    (_h2b : 2 ≤ (dropna (df.getCol "Lng")).length) :
    "gps_position_jump" ∉ issues.map Finding.ftype := by
  unfold analyze_gps_anomalies at h
  rcases e1 : hdopPart df with _ | l1 <;> rw [e1] at h
  · cases h
  rcases e2 : nsatsPart df with _ | l2 <;> rw [e2] at h
  · cases h
  rcases e3 : jumpPart ops df with _ | l3 <;> rw [e3] at h
  · cases h
  cases h
  intro hmem
  simp only [List.mem_map, List.mem_append] at hmem
  obtain ⟨f, hf, hft⟩ := hmem
  rcases hf with (hf | hf) | hf
  · unfold hdopPart at e1
    rcases part_elim _ hdop_core l1 e1 with rfl | ⟨nums, -, rfl⟩
    · simp at hf
    · rw [hdop_core_ftypes nums f hf] at hft
      exact absurd hft (by decide)
  · unfold nsatsPart at e2
    rcases part_elim _ nsats_core l2 e2 with rfl | ⟨nums, -, rfl⟩
    · simp at hf
    · rw [nsats_core_ftypes nums f hf] at hft
      exact absurd hft (by decide)
  · rw [jumpPart_disjoint ops df l3 e3 hd] at hf
    simp at hf

/-- Witness for C10 on the split-support GPS table (Lat on rows 0 and 2,
Lng on rows 1 and 3, with huge coordinate differences). -/
theorem C10_disjoint_no_jump_witness :
    analyze_gps_anomalies idOps splitGpsTable = some [] ∧
    (∀ i ∈ support (splitGpsTable.getCol "Lat"),
      i ∉ support (splitGpsTable.getCol "Lng")) ∧
    2 ≤ (dropna (splitGpsTable.getCol "Lat")).length ∧
    2 ≤ (dropna (splitGpsTable.getCol "Lng")).length ∧
    "gps_position_jump" ∉ ([] : List Finding).map Finding.ftype :=
  ⟨by with_unfolding_all decide, by decide, by decide, by decide,
   C10_disjoint_no_jump idOps splitGpsTable []
     (by with_unfolding_all decide) (by decide) (by decide) (by decide)⟩
